import Mathlib

/-!
Verification of the Spotify/Omi integration service (src/main.py, src/models.py)
against its natural-language specification.

The Python source is shallowly embedded: pure logic becomes Lean functions,
HTTP traffic is abstracted by oracle arguments describing the provider
response each call would receive, and Python exceptions are modelled with
`Except String` (an `Except.error e` value means the Python code raises an
uncaught exception at that point; handlers that wrap their body in
`try/except Exception` turn such an error back into a `ChatToolResponse`).
-/

set_option maxRecDepth 4000

/-- A minimal JSON value, used for the raw bodies the API client inspects
(`response.json()` in `spotify_api_request`, src/main.py lines 166-172). -/
inductive Json where
  | null : Json
  | bool : Bool → Json
  | num : Int → Json
  | str : String → Json
  | arr : List Json → Json
  | obj : List (String × Json) → Json

/-- Python `d.get(key, default)` where the receiver `j` may not be a dict:
on a dict it is a total lookup with fallback, on anything else Python raises
`AttributeError` (modelled as `Except.error`).  This is the semantics of the
chained `.get` calls on src/main.py line 170. -/
def pyGet (j : Json) (key : String) (default : Json) : Except String Json :=
  match j with
  | Json.obj kvs => Except.ok ((List.lookup key kvs).getD default)
  | _ => Except.error "AttributeError"

/-- ASCII lowercasing of one character, the effect of Python `str.lower()`
on the ASCII strings these handlers compare. -/
def lowerChar (c : Char) : Char :=
  if 65 ≤ c.toNat && c.toNat ≤ 90 then Char.ofNat (c.toNat + 32) else c

/-- Python `s.lower()` (ASCII range). -/
def strLower (s : String) : String := String.mk (s.data.map lowerChar)

/-- ASCII uppercasing of one character, the effect of Python `str.upper()`. -/
def upperChar (c : Char) : Char :=
  if 97 ≤ c.toNat && c.toNat ≤ 122 then Char.ofNat (c.toNat - 32) else c

/-- Python `s.upper()` (ASCII range). -/
def strUpper (s : String) : String := String.mk (s.data.map upperChar)

/-- Does `pat` occur at the head of the character list? -/
def leadsWith : List Char → List Char → Bool
  | [], _ => true
  | _ :: _, [] => false
  | p :: ps, c :: cs => p == c && leadsWith ps cs

/-- Does `pat` occur anywhere in the character list?  (The empty pattern
occurs everywhere, matching Python.) -/
def occursIn (pat : List Char) : List Char → Bool
  | [] => pat.isEmpty
  | c :: cs => leadsWith pat (c :: cs) || occursIn pat cs

/-- Outcome of one outbound HTTP request, as seen by `spotify_api_request`:
either the transport layer raised `requests.RequestException`, or a response
arrived with a status code and a parsed JSON body (`none` = empty content). -/
inductive HttpOutcome where
  | exn : String → HttpOutcome
  | resp : Nat → Option Json → HttpOutcome

/-- Shallow embedding of `spotify_api_request` (src/main.py lines 139-174),
from the point where an access token has (or has not) been resolved.
The first argument models `get_valid_access_token(uid)`; `outcome` models
what the single `requests.<method>` call would yield.  The result is the
returned dict, or `Except.error` when the Python code raises an exception
that its `except requests.RequestException` clause does not catch. -/
def spotify_api_request (access_token : Option String) (method : String)
    (outcome : HttpOutcome) : Except String Json :=
  match access_token with
  | none => Except.ok (Json.obj [("error", Json.str "User not authenticated with Spotify")])
  | some _ =>
    if (["GET", "POST", "PUT", "DELETE"] : List String).contains (strUpper method) then
      match outcome with
      | HttpOutcome.exn e =>
        Except.ok (Json.obj [("error", Json.str ("Request failed: " ++ e))])
      | HttpOutcome.resp status content =>
        if status == 204 then
          Except.ok (Json.obj [("success", Json.bool true)])
        else if status ≥ 400 then do
          let error_data := content.getD (Json.obj [])
          let nested ← pyGet error_data "error" (Json.obj [])
          let msg ← pyGet nested "message" (Json.str ("API error: " ++ toString status))
          Except.ok (Json.obj [("error", msg)])
        else
          Except.ok (content.getD (Json.obj [("success", Json.bool true)]))
    else
      Except.ok (Json.obj [("error", Json.str ("Unsupported HTTP method: " ++ method))])

/-- Modelled from the spec (section 4.4, `callApi`): the result shape the
specification promises for an authenticated call — bare success marker on
204, an error dict carrying the nested provider message (or the
`API error: <status>` fallback) on status ≥ 400, `Request failed: <details>`
on transport failure, the parsed body otherwise.  Written as a total
function, to be compared with `spotify_api_request`. -/
def callApiSpec (method : String) (outcome : HttpOutcome) : Json :=
  if (["GET", "POST", "PUT", "DELETE"] : List String).contains (strUpper method) then
    match outcome with
    | HttpOutcome.exn e => Json.obj [("error", Json.str ("Request failed: " ++ e))]
    | HttpOutcome.resp status content =>
      if status == 204 then Json.obj [("success", Json.bool true)]
      else if status ≥ 400 then
        let fallback := Json.str ("API error: " ++ toString status)
        let msg :=
          match content with
          | some (Json.obj kvs) =>
            match List.lookup "error" kvs with
            | some (Json.obj ekvs) => (List.lookup "message" ekvs).getD fallback
            | _ => fallback
          | _ => fallback
        Json.obj [("error", msg)]
      else content.getD (Json.obj [("success", Json.bool true)])
  else Json.obj [("error", Json.str ("Unsupported HTTP method: " ++ method))]

/-- An HTTP outcome is well formed when any status ≥ 400 JSON body is either
absent or a dict whose `error` field, when present, is itself a dict — the
shapes on which the chained `.get` calls of src/main.py line 170 are defined. -/
def apiWellFormed (outcome : HttpOutcome) : Bool :=
  match outcome with
  | HttpOutcome.exn _ => true
  | HttpOutcome.resp status content =>
    if status == 204 then true
    else if status ≥ 400 then
      match content with
      | none => true
      | some (Json.obj kvs) =>
        match List.lookup "error" kvs with
        | none => true
        | some (Json.obj _) => true
        | some _ => false
      | some _ => false
    else true

/-- `SpotifyTrack` (src/models.py lines 9-18).  All non-optional fields are
required by pydantic; `external_url` and `preview_url` default to `None`. -/
structure SpotifyTrack where
  id : String
  name : String
  artists : List String
  album : String
  duration_ms : Nat
  uri : String
  external_url : Option String := none
  preview_url : Option String := none
deriving DecidableEq

/-- `SpotifyPlaylist` (src/models.py lines 21-31).  `description` defaults to
the empty string and `external_url` to `None`; every other field — including
the `canEdit` flag on line 30 — is required. -/
structure SpotifyPlaylist where
  id : String
  name : String
  description : Option String := some ""
  owner : String
  tracks_total : Nat
  public : Bool
  uri : String
  canEdit : Bool
  external_url : Option String := none
deriving DecidableEq

/-- The keyword arguments supplied to one `SpotifyPlaylist(...)` construction
in src/main.py (`none` = the keyword is not passed at that call site). -/
structure PlaylistKwargs where
  id : Option String := none
  name : Option String := none
  description : Option String := none
  owner : Option String := none
  tracks_total : Option Nat := none
  public : Option Bool := none
  uri : Option String := none
  canEdit : Option Bool := none
  external_url : Option (Option String) := none

/-- Pydantic construction of `SpotifyPlaylist`: every field without a declared
default must be supplied, otherwise the constructor raises a
`ValidationError` (modelled as `Except.error`).  Optional fields fall back to
their declared defaults (src/models.py lines 21-31). -/
def SpotifyPlaylist.validate (kw : PlaylistKwargs) : Except String SpotifyPlaylist :=
  match kw.id, kw.name, kw.owner, kw.tracks_total, kw.public, kw.uri, kw.canEdit with
  | some id, some name, some owner, some tt, some pub, some uri, some ce =>
    Except.ok { id := id, name := name, description := some (kw.description.getD ""),
                owner := owner, tracks_total := tt, public := pub, uri := uri,
                canEdit := ce, external_url := kw.external_url.getD none }
  | _, _, _, _, _, _, _ =>
    Except.error "validation error for SpotifyPlaylist: field required"

/-- The persisted default-playlist record (`get_default_playlist`):
`{id, name}` per user id (spec section 3). -/
structure DefaultPlaylist where
  id : String
  name : String
deriving DecidableEq

/-- `ChatToolResponse` (src/models.py lines 121-124). -/
structure ChatToolResponse where
  result : Option String := none
  error : Option String := none
deriving DecidableEq

/-- `ChatToolResponse(error=msg)`. -/
def errResp (msg : String) : ChatToolResponse := { result := none, error := some msg }

/-- `ChatToolResponse(result=msg)`. -/
def okResp (msg : String) : ChatToolResponse := { result := some msg, error := none }

/-- The authentication-gate error text shared by all eight chat tools
(src/main.py lines 408, 451, 542, 590, 624, 675, 728, 784). -/
def connectMsg : String := "Please connect your Spotify account first in the app settings."

/-- `CreatePlaylistRequest` (src/models.py lines 85-89): `name` is required,
`description: Optional[str] = ""` and `public: bool = False` carry defaults.
(The `Optional[str]` value is collapsed to `String`; only presence and the
default value matter here.)  Base `ChatToolRequest` fields included. -/
structure CreatePlaylistRequest where
  uid : String
  app_id : String
  tool_name : String
  name : String
  description : String := ""
  public : Bool := false
deriving DecidableEq

/-- An inbound JSON body for the `CreatePlaylistRequest` schema: `none` means
the field is absent from the input. -/
structure CreatePlaylistInput where
  uid : Option String := none
  app_id : Option String := none
  tool_name : Option String := none
  name : Option String := none
  description : Option String := none
  public : Option Bool := none

/-- Pydantic validation of `CreatePlaylistRequest` from an input body:
required fields must be present, optional fields default as declared in
src/models.py lines 85-89 (description → `""`, public → `False`). -/
def CreatePlaylistRequest.parse (inp : CreatePlaylistInput) : Except String CreatePlaylistRequest :=
  match inp.uid, inp.app_id, inp.tool_name, inp.name with
  | some uid, some app_id, some tool_name, some name =>
    Except.ok { uid := uid, app_id := app_id, tool_name := tool_name, name := name,
                description := inp.description.getD "", public := inp.public.getD false }
  | _, _, _, _ =>
    Except.error "validation error for CreatePlaylistRequest: field required"

/-- One track item of a successful provider `/search` response, holding
exactly the fields `search_tracks` reads (src/main.py lines 188-198).
`artists` stands for `[a["name"] for a in item["artists"]]` and `album_name`
for `item["album"]["name"]`. -/
structure TrackItem where
  id : String
  name : String
  artists : List String
  album_name : String
  duration_ms : Nat
  uri : String
  external_url_spotify : Option String := none
  preview_url : Option String := none
deriving DecidableEq

/-- Provider response to `GET /search` as `search_tracks` distinguishes it:
an `error` dict, or a list of track items
(`result.get("tracks", {}).get("items", [])`). -/
inductive SearchResponse where
  | err : String → SearchResponse
  | found : List TrackItem → SearchResponse

/-- `search_tracks` (src/main.py lines 177-199): an upstream error becomes the
empty list, otherwise each item is mapped into `SpotifyTrack` (all required
fields are supplied at this call site, so construction always succeeds). -/
def search_tracks (resp : SearchResponse) : List SpotifyTrack :=
  match resp with
  | SearchResponse.err _ => []
  | SearchResponse.found items =>
    items.map (fun item =>
      { id := item.id, name := item.name, artists := item.artists,
        album := item.album_name, duration_ms := item.duration_ms,
        uri := item.uri, external_url := item.external_url_spotify,
        preview_url := item.preview_url })

/-- One playlist item of a successful provider `/me/playlists` response,
holding exactly the fields `get_user_playlists` reads (src/main.py lines
213-223).  `owner_display_name` stands for `item["owner"]["display_name"]`
and `tracks_total` for `item["tracks"]["total"]`; `description` and `public`
are read with `.get` defaults, `external_url_spotify` for
`item.get("external_urls", {}).get("spotify")`. -/
structure PlaylistItem where
  id : String
  name : String
  description : Option String := none
  owner_display_name : String
  tracks_total : Nat
  public : Option Bool := none
  uri : String
  external_url_spotify : Option String := none
deriving DecidableEq

/-- Provider response to `GET /me/playlists`: an `error` dict, or the list of
items (`result.get("items", [])`). -/
inductive PlaylistsResponse where
  | err : String → PlaylistsResponse
  | found : List PlaylistItem → PlaylistsResponse

/-- The `SpotifyPlaylist(...)` construction inside the loop of
`get_user_playlists` (src/main.py lines 214-223): the call supplies every
field of the response item but never the required `canEdit` field. -/
def playlistFromItem (item : PlaylistItem) : Except String SpotifyPlaylist :=
  SpotifyPlaylist.validate
    { id := some item.id, name := some item.name,
      description := some (item.description.getD ""),
      owner := some item.owner_display_name,
      tracks_total := some item.tracks_total,
      public := some (item.public.getD false),
      uri := some item.uri,
      external_url := some item.external_url_spotify }

/-- `get_user_playlists` (src/main.py lines 202-224): an upstream error
becomes the empty list; otherwise each item is mapped through the pydantic
constructor, whose failure (a raised `ValidationError`) propagates to the
caller as `Except.error`. -/
def get_user_playlists (resp : PlaylistsResponse) : Except String (List SpotifyPlaylist) :=
  match resp with
  | PlaylistsResponse.err _ => Except.ok []
  | PlaylistsResponse.found items => items.mapM playlistFromItem

/-- Python substring containment `pat in s` for strings. -/
def strContains (s pat : String) : Bool := occursIn pat.data s.data

/-- `find_playlist_by_name` (src/main.py lines 227-242): over the playlists of
a limit-50 `/me/playlists` call (whose response is `resp`), first the loop
looking for a case-insensitive exact name match, then the loop looking for
case-insensitive substring containment, else `None`.  The pydantic failure
inside `get_user_playlists` propagates. -/
def find_playlist_by_name (resp : PlaylistsResponse) (name : String) :
    Except String (Option SpotifyPlaylist) := do
  let playlists ← get_user_playlists resp
  let name_lower := strLower name
  match playlists.find? (fun p => strLower p.name == name_lower) with
  | some p => return some p
  | none => return playlists.find? (fun p => strContains (strLower p.name) name_lower)

/-- Zero padding to width two, the semantics of Python `f"{n:02d}"` for a
non-negative `n` already rendered as a decimal string. -/
def zfill2 (s : String) : String :=
  if s.length < 2 then "0" ++ s else s

/-- The duration rendering `f"{ms // 60000}:{(ms % 60000) // 1000:02d}"`
shared by `tool_search_songs` (src/main.py line 419) and
`tool_get_now_playing` (lines 641-642). -/
def formatDuration (ms : Nat) : String :=
  toString (ms / 60000) ++ ":" ++ zfill2 (toString ((ms % 60000) / 1000))

/-- One outbound provider API call issued by a chat-tool handler: HTTP method,
endpoint path, and the track URIs carried in the JSON body (empty when the
call carries none).  Handlers return the list of calls they issued. -/
structure ApiCall where
  method : String
  endpoint : String
  uris : List String := []
deriving DecidableEq

/-- The request body of `/tools/search_songs` as the handler reads it
(src/main.py lines 396-398); a missing or null `uid` collapses to `""`,
which Python treats identically (both falsy, only used truthily). -/
structure SearchBody where
  uid : String := ""
  query : String := ""
  limit : Nat := 5

/-- One line of the search result list (src/main.py line 420). -/
def searchLine (i : Nat) (t : SpotifyTrack) : String :=
  toString i ++ ". **" ++ t.name ++ "** by " ++ String.intercalate ", " t.artists ++
    " (" ++ formatDuration t.duration_ms ++ ") - Album: " ++ t.album

/-- `tool_search_songs` (src/main.py lines 388-425).  `getTokens` models
`get_spotify_tokens` (presence of a credential record); `search q limit`
models the provider response to the `GET /search` issued for query `q`.
Returns the `ChatToolResponse` together with the provider calls issued. -/
def tool_search_songs (getTokens : String → Option Unit)
    (search : String → Nat → SearchResponse) (body : SearchBody) :
    ChatToolResponse × List ApiCall :=
  if body.uid == "" then (errResp "User ID is required", [])
  else if body.query == "" then (errResp "Search query is required", [])
  else if (getTokens body.uid).isNone then (errResp connectMsg, [])
  else
    let tracks := search_tracks (search body.query body.limit)
    let calls := [{ method := "GET", endpoint := "/search" : ApiCall }]
    if tracks.isEmpty then
      (okResp ("No songs found for \x27" ++ body.query ++ "\x27"), calls)
    else
      let results := tracks.enum.map (fun p => searchLine (p.1 + 1) p.2)
      (okResp ("🎵 Found " ++ toString tracks.length ++ " songs:\n\n" ++
        String.intercalate "\n" results), calls)

/-- The request body of `/tools/add_to_playlist` (src/main.py lines 437-441);
string fields collapse missing/null to `""` (Python only tests them truthily). -/
structure AddBody where
  uid : String := ""
  song_name : String := ""
  artist_name : String := ""
  playlist_name : String := ""
  playlist_id : String := ""

/-- The `SpotifyPlaylist(...)` construction of the explicit-playlist-id branch
(src/main.py lines 471-478): `canEdit` is not among the keywords passed. -/
def idBranchKwargs (body : AddBody) : PlaylistKwargs :=
  { id := some body.playlist_id,
    name := some (if body.playlist_name != "" then body.playlist_name else "Unknown"),
    owner := some "", tracks_total := some 0, public := some false,
    uri := some ("spotify:playlist:" ++ body.playlist_id) }

/-- The `SpotifyPlaylist(...)` construction of the default-playlist branch
(src/main.py lines 488-495): `canEdit` is not among the keywords passed. -/
def defaultBranchKwargs (d : DefaultPlaylist) : PlaylistKwargs :=
  { id := some d.id, name := some d.name,
    owner := some "", tracks_total := some 0, public := some false,
    uri := some ("spotify:playlist:" ++ d.id) }

/-- The tail of `tool_add_to_playlist` once a target playlist value exists
(src/main.py lines 499-515): POST the track URI to the playlist-tracks
endpoint and format the outcome.  `addResult id` is the error message of the
POST response for playlist `id`, if any. -/
def addStep (addResult : String → Option String) (calls : List ApiCall)
    (track : SpotifyTrack) (target : SpotifyPlaylist) :
    ChatToolResponse × List ApiCall :=
  let calls := calls ++
    [{ method := "POST", endpoint := "/playlists/" ++ target.id ++ "/tracks",
       uris := [track.uri] }]
  match addResult target.id with
  | some e => (errResp ("Failed to add song: " ++ e), calls)
  | none =>
    (okResp ("✅ Added **" ++ track.name ++ "** by " ++
      String.intercalate ", " track.artists ++ " to playlist **" ++
      target.name ++ "**!"), calls)

/-- `tool_add_to_playlist` (src/main.py lines 428-518).  Oracles: `getTokens`
for `get_spotify_tokens`, `getDefault` for `get_default_playlist`, `search`
for the `/search` response, `playlists` for the limit-50 `/me/playlists`
response used by `find_playlist_by_name`, `addResult` for the playlist-tracks
POST.  A pydantic `ValidationError` raised while building the target playlist
is caught by the handler boundary (`except Exception`, line 517) and turned
into the error `Failed to add song: <e>`. -/
def tool_add_to_playlist (getTokens : String → Option Unit)
    (getDefault : String → Option DefaultPlaylist)
    (search : String → Nat → SearchResponse)
    (playlists : PlaylistsResponse)
    (addResult : String → Option String) (body : AddBody) :
    ChatToolResponse × List ApiCall :=
  if body.uid == "" then (errResp "User ID is required", [])
  else if body.song_name == "" then (errResp "Song name is required", [])
  else if (getTokens body.uid).isNone then (errResp connectMsg, [])
  else
    let search_query :=
      if body.artist_name != "" then body.song_name ++ " artist:" ++ body.artist_name
      else body.song_name
    let tracks := search_tracks (search search_query 1)
    let calls := [{ method := "GET", endpoint := "/search" : ApiCall }]
    match tracks with
    | [] => (errResp ("Could not find song: " ++ body.song_name), calls)
    | track :: _ =>
      if body.playlist_id != "" then
        match SpotifyPlaylist.validate (idBranchKwargs body) with
        | Except.error e => (errResp ("Failed to add song: " ++ e), calls)
        | Except.ok target => addStep addResult calls track target
      else if body.playlist_name != "" then
        let calls := calls ++ [{ method := "GET", endpoint := "/me/playlists" : ApiCall }]
        match find_playlist_by_name playlists body.playlist_name with
        | Except.error e => (errResp ("Failed to add song: " ++ e), calls)
        | Except.ok none =>
          (errResp ("Could not find playlist: " ++ body.playlist_name), calls)
        | Except.ok (some target) => addStep addResult calls track target
      else
        match getDefault body.uid with
        | none =>
          (errResp "No playlist specified and no default playlist set. Please specify a playlist name or set a default in app settings.", calls)
        | some d =>
          match SpotifyPlaylist.validate (defaultBranchKwargs d) with
          | Except.error e => (errResp ("Failed to add song: " ++ e), calls)
          | Except.ok target => addStep addResult calls track target

/-- The request body of `/tools/create_playlist` as the handler reads it
(src/main.py lines 529-532), with the manual `.get` defaults applied. -/
structure CreateBody where
  uid : String := ""
  name : String := ""
  description : String := "Created with Omi"
  public : Bool := false

/-- The handler-side reading of the raw create-playlist JSON body
(src/main.py lines 529-532): `body.get("name", "")`,
`body.get("description", "Created with Omi")`, `body.get("public", False)`.
`none` means the field is absent from the body. -/
def readCreateBody (uid : Option String) (name : Option String)
    (description : Option String) (pub : Option Bool) : CreateBody :=
  { uid := uid.getD "", name := name.getD "",
    description := description.getD "Created with Omi",
    public := pub.getD false }

/-- `tool_create_playlist` (src/main.py lines 521-571).  `profile` models the
`GET /me` response (`Sum.inl` = dict with an `error` key, `Sum.inr` = the
profile id); `createResult` models the playlist-creation POST (`Sum.inl` =
error message, `Sum.inr` = the external playlist URL read with `.get`
defaults, so `""` when absent). -/
def tool_create_playlist (getTokens : String → Option Unit)
    (profile : Sum String String) (createResult : Sum String String)
    (body : CreateBody) : ChatToolResponse × List ApiCall :=
  if body.uid == "" then (errResp "User ID is required", [])
  else if body.name == "" then (errResp "Playlist name is required", [])
  else if (getTokens body.uid).isNone then (errResp connectMsg, [])
  else
    match profile with
    | Sum.inl _ =>
      (errResp "Failed to get user profile", [{ method := "GET", endpoint := "/me" }])
    | Sum.inr spotify_user_id =>
      let calls := [{ method := "GET", endpoint := "/me" : ApiCall },
        { method := "POST", endpoint := "/users/" ++ spotify_user_id ++ "/playlists" }]
      match createResult with
      | Sum.inl e => (errResp ("Failed to create playlist: " ++ e), calls)
      | Sum.inr playlist_url =>
        (okResp ("✅ Created playlist **" ++ body.name ++ "**!\n\nOpen in Spotify: " ++
          playlist_url), calls)

/-- The request body of `/tools/get_playlists` (src/main.py lines 582-583). -/
structure PlaylistsBody where
  uid : String := ""
  limit : Nat := 10

/-- One line of the playlist listing (src/main.py lines 600-601). -/
def playlistLine (i : Nat) (p : SpotifyPlaylist) : String :=
  toString i ++ ". " ++ (if p.public then "🌐" else "🔒") ++ " **" ++ p.name ++
    "** (" ++ toString p.tracks_total ++ " tracks)"

/-- `tool_get_playlists` (src/main.py lines 574-606).  `playlistsResp limit`
models the `/me/playlists` response for the requested limit.  A pydantic
`ValidationError` raised inside `get_user_playlists` is caught by the handler
boundary (line 605) and becomes `Failed to get playlists: <e>`. -/
def tool_get_playlists (getTokens : String → Option Unit)
    (playlistsResp : Nat → PlaylistsResponse) (body : PlaylistsBody) :
    ChatToolResponse × List ApiCall :=
  if body.uid == "" then (errResp "User ID is required", [])
  else if (getTokens body.uid).isNone then (errResp connectMsg, [])
  else
    let calls := [{ method := "GET", endpoint := "/me/playlists" : ApiCall }]
    match get_user_playlists (playlistsResp body.limit) with
    | Except.error e => (errResp ("Failed to get playlists: " ++ e), calls)
    | Except.ok [] => (okResp "You don\x27t have any playlists yet.", calls)
    | Except.ok playlists =>
      let results := playlists.enum.map (fun p => playlistLine (p.1 + 1) p.2)
      (okResp ("📋 Your playlists:\n\n" ++ String.intercalate "\n" results), calls)

/-- The request body of `/tools/get_now_playing` (src/main.py line 617). -/
structure NowPlayingBody where
  uid : String := ""

/-- Provider response to `GET /me/player/currently-playing` as the handler
distinguishes it (src/main.py lines 626-639): an `error` dict; an empty or
item-less body; or an item carrying the fields the handler reads. -/
inductive NowPlayingResponse where
  | err : String → NowPlayingResponse
  | noItem : NowPlayingResponse
  | playing : Bool → Nat → String → List String → String → Nat → NowPlayingResponse

/-- `tool_get_now_playing` (src/main.py lines 609-653).  In the `playing`
case the response fields are, in order, `is_playing`, `progress_ms`, the
track name, the artist names, the album name and `duration_ms`. -/
def tool_get_now_playing (getTokens : String → Option Unit)
    (resp : NowPlayingResponse) (body : NowPlayingBody) :
    ChatToolResponse × List ApiCall :=
  if body.uid == "" then (errResp "User ID is required", [])
  else if (getTokens body.uid).isNone then (errResp connectMsg, [])
  else
    let calls := [{ method := "GET", endpoint := "/me/player/currently-playing" : ApiCall }]
    match resp with
    | NowPlayingResponse.err e => (errResp ("Failed to get playback: " ++ e), calls)
    | NowPlayingResponse.noItem =>
      (okResp "🔇 Nothing is currently playing on Spotify.", calls)
    | NowPlayingResponse.playing is_playing progress_ms name artists album duration_ms =>
      let progress := formatDuration progress_ms
      let duration := formatDuration duration_ms
      let status := if is_playing then "▶️ Playing" else "⏸️ Paused"
      (okResp (status ++ ": **" ++ name ++ "** by " ++ String.intercalate ", " artists ++
        "\nAlbum: " ++ album ++ "\nProgress: " ++ progress ++ " / " ++ duration), calls)

/-- The request body of `/tools/control_playback` (src/main.py lines 664-665);
`action` models `body.get("action", "")` before the `.lower()` call. -/
structure ControlBody where
  uid : String := ""
  action : String := ""

/-- The accepted playback actions (src/main.py line 670). -/
def acceptedActions : List String := ["play", "pause", "next", "previous", "skip"]

/-- The `endpoint_map` dict of src/main.py lines 678-684, as
`action → (endpoint, method)`.  The final branch is only ever reached for
`"previous"`, the remaining key of the dict after the membership check. -/
def endpoint_map (action : String) : String × String :=
  if action == "play" then ("/me/player/play", "PUT")
  else if action == "pause" then ("/me/player/pause", "PUT")
  else if action == "next" then ("/me/player/next", "POST")
  else if action == "skip" then ("/me/player/next", "POST")
  else ("/me/player/previous", "POST")

/-- The `action_messages` dict of src/main.py lines 694-700.  The final
branch is only ever reached for `"previous"`. -/
def action_messages (action : String) : String :=
  if action == "play" then "▶️ Resumed playback"
  else if action == "pause" then "⏸️ Paused playback"
  else if action == "next" then "⏭️ Skipped to next track"
  else if action == "skip" then "⏭️ Skipped to next track"
  else "⏮️ Went to previous track"

/-- `tool_control_playback` (src/main.py lines 656-705).  `playback method
endpoint` is the error message, if any, of the provider call the handler
issues.  Source order is kept: uid check, then action validation on the
lowercased action, then the credential check, then the single provider call. -/
def tool_control_playback (getTokens : String → Option Unit)
    (playback : String → String → Option String) (body : ControlBody) :
    ChatToolResponse × List ApiCall :=
  let action := strLower body.action
  if body.uid == "" then (errResp "User ID is required", [])
  else if ¬ acceptedActions.contains action then
    (errResp "Invalid action. Use: play, pause, next, previous", [])
  else if (getTokens body.uid).isNone then (errResp connectMsg, [])
  else
    let ep := endpoint_map action
    let calls := [{ method := ep.2, endpoint := ep.1 : ApiCall }]
    match playback ep.2 ep.1 with
    | some e =>
      if strContains e "No active device" then
        (errResp "No active Spotify device found. Please open Spotify on one of your devices first.", calls)
      else (errResp ("Playback control failed: " ++ e), calls)
    | none => (okResp (action_messages action), calls)

/-- The request body of `/tools/play_song` (src/main.py lines 716-718). -/
structure PlaySongBody where
  uid : String := ""
  song_name : String := ""
  artist_name : String := ""

/-- `tool_play_song` (src/main.py lines 708-762).  `playResult` is the error
message, if any, of the `PUT /me/player/play` call. -/
def tool_play_song (getTokens : String → Option Unit)
    (search : String → Nat → SearchResponse) (playResult : Option String)
    (body : PlaySongBody) : ChatToolResponse × List ApiCall :=
  if body.uid == "" then (errResp "User ID is required", [])
  else if body.song_name == "" then (errResp "Song name is required", [])
  else if (getTokens body.uid).isNone then (errResp connectMsg, [])
  else
    let search_query :=
      if body.artist_name != "" then body.song_name ++ " artist:" ++ body.artist_name
      else body.song_name
    let tracks := search_tracks (search search_query 1)
    let calls := [{ method := "GET", endpoint := "/search" : ApiCall }]
    match tracks with
    | [] => (errResp ("Could not find song: " ++ body.song_name), calls)
    | track :: _ =>
      let calls := calls ++
        [{ method := "PUT", endpoint := "/me/player/play", uris := [track.uri] }]
      match playResult with
      | some e =>
        if strContains e "No active device" then
          (errResp "No active Spotify device found. Please open Spotify on one of your devices first.", calls)
        else (errResp ("Failed to play: " ++ e), calls)
      | none =>
        (okResp ("▶️ Now playing: **" ++ track.name ++ "** by " ++
          String.intercalate ", " track.artists), calls)

/-- The request body of `/tools/get_recommendations` (src/main.py lines
773-777); missing seed lists collapse to `[]` (both falsy in Python). -/
structure RecsBody where
  uid : String := ""
  seed_tracks : List String := []
  seed_artists : List String := []
  seed_genres : List String := []
  limit : Nat := 5

/-- Provider response to `GET /me/player/recently-played` as the handler
reads it (src/main.py lines 788-790): an `error` dict, or the track ids of
the returned items. -/
inductive RecentResponse where
  | err : String → RecentResponse
  | found : List String → RecentResponse

/-- The query parameters built for `GET /recommendations` (src/main.py lines
792-798): a seed parameter is present exactly when its list is non-empty,
and holds the comma-joined first five entries. -/
structure RecsParams where
  limit : Nat
  seed_tracks : Option String := none
  seed_artists : Option String := none
  seed_genres : Option String := none
deriving DecidableEq

/-- Provider response to `GET /recommendations`: an `error` dict, or the
recommended tracks as `(name, artist names)` pairs (src/main.py lines
805-813). -/
inductive RecsResponse where
  | err : String → RecsResponse
  | found : List (String × List String) → RecsResponse

/-- One line of the recommendations listing (src/main.py line 813). -/
def recsLine (i : Nat) (t : String × List String) : String :=
  toString i ++ ". **" ++ t.1 ++ "** by " ++ String.intercalate ", " t.2

/-- `tool_get_recommendations` (src/main.py lines 765-818).  When no seeds
are given, the handler first calls the recently-played endpoint and, when
that has items and no error, uses (up to) the first five track ids as
seeds. -/
def tool_get_recommendations (getTokens : String → Option Unit)
    (recent : RecentResponse) (recs : RecsParams → RecsResponse)
    (body : RecsBody) : ChatToolResponse × List ApiCall :=
  if body.uid == "" then (errResp "User ID is required", [])
  else if (getTokens body.uid).isNone then (errResp connectMsg, [])
  else
    let noSeeds := body.seed_tracks.isEmpty && body.seed_artists.isEmpty &&
      body.seed_genres.isEmpty
    let seed_tracks :=
      if noSeeds then
        match recent with
        | RecentResponse.err _ => body.seed_tracks
        | RecentResponse.found ids => if ids.isEmpty then body.seed_tracks else ids.take 5
      else body.seed_tracks
    let recentCalls : List ApiCall :=
      if noSeeds then [{ method := "GET", endpoint := "/me/player/recently-played" }] else []
    let params : RecsParams :=
      { limit := body.limit,
        seed_tracks :=
          if !seed_tracks.isEmpty then some (String.intercalate "," (seed_tracks.take 5))
          else none,
        seed_artists :=
          if !body.seed_artists.isEmpty then
            some (String.intercalate "," (body.seed_artists.take 5))
          else none,
        seed_genres :=
          if !body.seed_genres.isEmpty then
            some (String.intercalate "," (body.seed_genres.take 5))
          else none }
    let calls := recentCalls ++ [{ method := "GET", endpoint := "/recommendations" : ApiCall }]
    match recs params with
    | RecsResponse.err e => (errResp ("Failed to get recommendations: " ++ e), calls)
    | RecsResponse.found [] => (okResp "No recommendations found.", calls)
    | RecsResponse.found tracks =>
      let results := tracks.enum.map (fun p => recsLine (p.1 + 1) p.2)
      (okResp ("🎧 Recommended songs for you:\n\n" ++ String.intercalate "\n" results), calls)

/-- A well-formed `/me/playlists` item named "Road Trip" (spec section 8,
property 5). -/
def roadTripItem : PlaylistItem :=
  { id := "p9", name := "Road Trip", owner_display_name := "alice", tracks_total := 3,
    uri := "spotify:playlist:p9" }

/-- A well-formed `/me/playlists` item named "Trip Hop" (spec section 8,
property 5). -/
def tripHopItem : PlaylistItem :=
  { id := "p10", name := "Trip Hop", owner_display_name := "alice", tracks_total := 4,
    uri := "spotify:playlist:p10" }

/-- A well-formed `/search` track item. -/
def sampleTrackItem : TrackItem :=
  { id := "t1", name := "Song", artists := ["Artist"], album_name := "Album",
    duration_ms := 200000, uri := "spotify:track:t1" }

theorem zfill2_two_digits : ∀ n : Fin 60, (zfill2 (toString n.val)).length = 2 := by decide

/-- C1: the spec promises that, for a user with credentials and a stored
default playlist `{id := "p1", name := "Chill"}`, adding a song with no
explicit playlist appends the track URI via the playlist-tracks call for
"p1" and reports success naming "Chill".  The code cannot do this: the
default-playlist branch constructs `SpotifyPlaylist` without the required
`canEdit` field (src/main.py lines 488-495 vs src/models.py line 30), so
pydantic raises a `ValidationError`, the handler boundary converts it to the
error `Failed to add song: ...`, and no playlist-tracks POST is issued (the
trace holds only the `/search` call). -/
theorem C1_default_playlist_add_fails :
    tool_add_to_playlist (fun _ => some ()) (fun _ => some { id := "p1", name := "Chill" })
      (fun _ _ => SearchResponse.found [sampleTrackItem]) (PlaylistsResponse.found [])
      (fun _ => none) { uid := "u1", song_name := "Song" } =
    (errResp "Failed to add song: validation error for SpotifyPlaylist: field required",
      [{ method := "GET", endpoint := "/search" }]) := rfl

/-- C2: the spec promises one `Playlist` value per item of a successful
`/me/playlists` response.  The mapping in `get_user_playlists`
(src/main.py lines 214-223) never supplies the required `canEdit` field of
`SpotifyPlaylist` (src/models.py line 30), so on any successful response
with at least one item the construction raises a pydantic `ValidationError`
instead of returning the list; only the provider-error case (empty list)
behaves as claimed. -/
theorem C2_get_user_playlists_fails :
    get_user_playlists (PlaylistsResponse.found [roadTripItem]) =
      Except.error "validation error for SpotifyPlaylist: field required"
  ∧ get_user_playlists (PlaylistsResponse.err "API error: 500") = Except.ok [] :=
  ⟨rfl, rfl⟩

/-- C4: the spec promises that `find_playlist_by_name` prefers the exact
case-insensitive match ("Trip Hop") over an earlier substring match
("Road Trip").  The matching loops of src/main.py lines 232-242 are indeed
ordered exact-first, but they are unreachable whenever the user has any
playlist: `get_user_playlists` raises a pydantic `ValidationError` first
(missing required `canEdit`, src/models.py line 30), which propagates out of
`find_playlist_by_name`.  On the very example of spec section 8 property 5
the function raises instead of returning "Trip Hop". -/
theorem C4_find_playlist_by_name_fails :
    find_playlist_by_name (PlaylistsResponse.found [roadTripItem, tripHopItem]) "Trip Hop" =
      Except.error "validation error for SpotifyPlaylist: field required" := rfl

/-- C6 counterexample: the `CreatePlaylistRequest` schema (src/models.py
lines 85-89) defaults a missing `description` to the empty string, not to
"Created with Omi". -/
theorem C6_counterexample :
    (CreatePlaylistRequest.parse
      { uid := some "u", app_id := some "a", tool_name := some "t",
        name := some "Mix" }).map (fun r => r.description) = Except.ok ""
  ∧ ("" : String) ≠ "Created with Omi" :=
  ⟨rfl, by decide⟩

/-- C6 amended: the schema defaults `public` to `false` and `description` to
`""`; it is the `create_playlist` handler, which reads the raw body and
bypasses the schema, that defaults a missing `description` to
"Created with Omi" (src/main.py line 531). -/
theorem C6_amended (u a t n : String) :
    (CreatePlaylistRequest.parse
      { uid := some u, app_id := some a, tool_name := some t,
        name := some n }).map (fun r => (r.description, r.public)) =
      Except.ok ("", false)
  ∧ (readCreateBody (some u) (some n) none none).description = "Created with Omi"
  ∧ (readCreateBody (some u) (some n) none none).public = false :=
  ⟨rfl, rfl, rfl⟩

/-- C9: chat-tool durations are rendered as minutes:seconds — minutes is
`ms / 60000`, seconds is `(ms % 60000) / 1000` zero-padded to exactly two
digits — and concretely 125000 ms renders as "2:05" and 59000 ms as "0:59"
(src/main.py lines 419 and 641-642, embedded as `formatDuration`, which
`tool_search_songs` and `tool_get_now_playing` use). -/
theorem C9_duration_format (ms : Nat) :
    formatDuration ms =
      toString (ms / 60000) ++ ":" ++ zfill2 (toString ((ms % 60000) / 1000))
  ∧ (zfill2 (toString ((ms % 60000) / 1000))).length = 2
  ∧ formatDuration 125000 = "2:05" ∧ formatDuration 59000 = "0:59" := by
  have h : (ms % 60000) / 1000 < 60 := by omega
  exact ⟨rfl, zfill2_two_digits ⟨_, h⟩, rfl, rfl⟩

/-- C3 counterexample: with no credential record and a non-empty uid, the
`control_playback` tool answers an unrecognized action with the
invalid-action error — whose text does not indicate the account is not
connected — because the action is validated before the credential check
(src/main.py lines 670-675).  So not every body with a non-empty uid yields
the not-connected error. -/
theorem C3_counterexample :
    tool_control_playback (fun _ => none) (fun _ _ => none)
      { uid := "u1", action := "shuffle" } =
      (errResp "Invalid action. Use: play, pause, next, previous", [])
  ∧ "Invalid action. Use: play, pause, next, previous" ≠ connectMsg :=
  ⟨rfl, by decide⟩

/-- C3 amended: for every user id with no credential record, each of the
eight chat tools — given a non-empty uid and inputs that pass the tool
pre-credential validation (non-empty query, song name or playlist name;
recognized playback action) — returns the error "Please connect your
Spotify account first in the app settings." with the result field empty and
no provider call issued. -/
theorem C3_amended (uid : String) (getTokens : String → Option Unit)
    (huid : uid ≠ "") (htok : getTokens uid = none) :
    (∀ search query limit, query ≠ "" →
      tool_search_songs getTokens search { uid := uid, query := query, limit := limit } =
        (errResp connectMsg, []))
  ∧ (∀ getDefault search playlists addResult song artist pname pid, song ≠ "" →
      tool_add_to_playlist getTokens getDefault search playlists addResult
        { uid := uid, song_name := song, artist_name := artist,
          playlist_name := pname, playlist_id := pid } = (errResp connectMsg, []))
  ∧ (∀ profile createResult name description pub, name ≠ "" →
      tool_create_playlist getTokens profile createResult
        { uid := uid, name := name, description := description, public := pub } =
        (errResp connectMsg, []))
  ∧ (∀ playlistsResp limit,
      tool_get_playlists getTokens playlistsResp { uid := uid, limit := limit } =
        (errResp connectMsg, []))
  ∧ (∀ resp, tool_get_now_playing getTokens resp { uid := uid } =
      (errResp connectMsg, []))
  ∧ (∀ playback action, acceptedActions.contains (strLower action) = true →
      tool_control_playback getTokens playback { uid := uid, action := action } =
        (errResp connectMsg, []))
  ∧ (∀ search playResult song artist, song ≠ "" →
      tool_play_song getTokens search playResult
        { uid := uid, song_name := song, artist_name := artist } =
        (errResp connectMsg, []))
  ∧ (∀ recent recs st sa sg limit,
      tool_get_recommendations getTokens recent recs
        { uid := uid, seed_tracks := st, seed_artists := sa, seed_genres := sg,
          limit := limit } = (errResp connectMsg, [])) := by
  have huid' : (uid == "") = false := by simpa using huid
  refine ⟨?_, ?_, ?_, ?_, ?_, ?_, ?_, ?_⟩
  · intro search query limit hq
    have hq' : (query == "") = false := by simpa using hq
    simp [tool_search_songs, huid', hq', htok]
  · intro getDefault search playlists addResult song artist pname pid hs
    have hs' : (song == "") = false := by simpa using hs
    simp [tool_add_to_playlist, huid', hs', htok]
  · intro profile createResult name description pub hn
    have hn' : (name == "") = false := by simpa using hn
    simp [tool_create_playlist, huid', hn', htok]
  · intro playlistsResp limit
    simp [tool_get_playlists, huid', htok]
  · intro resp
    simp [tool_get_now_playing, huid', htok]
  · intro playback action hact
    have hmem : strLower action ∈ acceptedActions := by simpa using hact
    simp [tool_control_playback, huid', hmem, htok]
  · intro search playResult song artist hs
    have hs' : (song == "") = false := by simpa using hs
    simp [tool_play_song, huid', hs', htok]
  · intro recent recs st sa sg limit
    simp [tool_get_recommendations, huid', htok]

/-- C3 witness: the amended theorem applied at a concrete unconnected user. -/
theorem C3_witness :
    tool_search_songs (fun _ => none) (fun _ _ => SearchResponse.found [])
      { uid := "u1", query := "q" } = (errResp connectMsg, [])
  ∧ tool_get_now_playing (fun _ => none) NowPlayingResponse.noItem { uid := "u1" } =
      (errResp connectMsg, [])
  ∧ tool_control_playback (fun _ => none) (fun _ _ => none)
      { uid := "u1", action := "play" } = (errResp connectMsg, []) :=
  ⟨(C3_amended "u1" (fun _ => none) (by decide) rfl).1 _ "q" 5 (by decide),
   (C3_amended "u1" (fun _ => none) (by decide) rfl).2.2.2.2.1 _,
   (C3_amended "u1" (fun _ => none) (by decide) rfl).2.2.2.2.2.1 _ "play" rfl⟩

/-- C5 counterexample: `spotify_api_request` can throw.  On a status-400
response whose JSON body carries a string-valued `error` field, line 170 of
src/main.py calls `.get` on that string, raising an `AttributeError` that
the `except requests.RequestException` clause does not catch. -/
theorem C5_counterexample :
    spotify_api_request (some "tok") "GET"
      (HttpOutcome.resp 400 (some (Json.obj [("error", Json.str "invalid_request")]))) =
    Except.error "AttributeError" := rfl

/-- C5 amended: for every authenticated call whose ≥ 400 response body, when
present, is a dict with an absent-or-dict `error` field, `spotify_api_request`
returns (never throws) exactly the result the spec describes: bare success
marker on 204, the nested `error.message` (falling back to
`API error: <status>`) on status ≥ 400, `Request failed: <details>` on
transport failure, the parsed body otherwise — the shape `callApiSpec`
written from the spec text computes. -/
theorem C5_amended (tok method : String) (outcome : HttpOutcome)
    (h : apiWellFormed outcome = true) :
    spotify_api_request (some tok) method outcome =
      Except.ok (callApiSpec method outcome) := by
  by_cases hm : strUpper method = "GET" ∨ strUpper method = "POST" ∨
    strUpper method = "PUT" ∨ strUpper method = "DELETE"
  · cases outcome with
    | exn e => simp [spotify_api_request, callApiSpec, hm]
    | resp status content =>
      by_cases h204 : status = 204
      · subst h204
        simp [spotify_api_request, callApiSpec, hm]
      · by_cases h400 : 400 ≤ status
        · cases content with
          | none =>
            simp only [spotify_api_request, callApiSpec, hm, h204, h400, pyGet]
            simp [hm, h204, h400]
            rfl
          | some j =>
            cases j with
            | obj kvs =>
              simp only [apiWellFormed, beq_iff_eq, h204, if_false, h400, if_true] at h
              cases hl : List.lookup "error" kvs with
              | none =>
                simp [spotify_api_request, callApiSpec, hm, h204, h400, pyGet, hl]
                rfl
              | some v =>
                rw [hl] at h
                cases v with
                | obj ekvs =>
                  simp [spotify_api_request, callApiSpec, hm, h204, h400, pyGet, hl]
                  rfl
                | null => simp at h
                | bool b => simp at h
                | num n => simp at h
                | str s => simp at h
                | arr xs => simp at h
            | null =>
              simp [apiWellFormed, h204, h400] at h
            | bool b =>
              simp [apiWellFormed, h204, h400] at h
            | num n =>
              simp [apiWellFormed, h204, h400] at h
            | str s =>
              simp [apiWellFormed, h204, h400] at h
            | arr xs =>
              simp [apiWellFormed, h204, h400] at h
        · simp [spotify_api_request, callApiSpec, hm, h204, h400]
  · simp [spotify_api_request, callApiSpec, hm]

/-- C5 witness: the amended theorem applied at a concrete 400 response with a
well-formed nested error body. -/
theorem C5_witness :
    spotify_api_request (some "tok") "GET"
      (HttpOutcome.resp 400 (some (Json.obj [("error",
        Json.obj [("message", Json.str "No active device found")])]))) =
    Except.ok (callApiSpec "GET"
      (HttpOutcome.resp 400 (some (Json.obj [("error",
        Json.obj [("message", Json.str "No active device found")])]))))  :=
  C5_amended "tok" "GET" _ rfl

/-- C7: for any authenticated user, `control_playback` with action "skip" and
with action "next" both issue `POST /me/player/next` (the trace holds exactly
that call) and, when the provider call succeeds, both return the same
"⏭️ Skipped to next track" success message (src/main.py lines 678-702). -/
theorem C7_skip_next_equivalent (getTokens : String → Option Unit)
    (playback : String → String → Option String) (uid : String)
    (h1 : uid ≠ "") (h2 : getTokens uid = some ())
    (h3 : playback "POST" "/me/player/next" = none) :
    tool_control_playback getTokens playback { uid := uid, action := "skip" } =
      (okResp "⏭️ Skipped to next track",
        [{ method := "POST", endpoint := "/me/player/next" }])
  ∧ tool_control_playback getTokens playback { uid := uid, action := "next" } =
      (okResp "⏭️ Skipped to next track",
        [{ method := "POST", endpoint := "/me/player/next" }]) := by
  have huid' : (uid == "") = false := by simpa using h1
  have hs : strLower "skip" = "skip" := rfl
  have hn : strLower "next" = "next" := rfl
  constructor <;>
    simp [tool_control_playback, huid', hs, hn, h2, h3, acceptedActions,
      endpoint_map, action_messages]

/-- C7 witness: the theorem applied at a concrete connected user whose
next-track call succeeds. -/
theorem C7_witness :
    tool_control_playback (fun _ => some ()) (fun _ _ => none)
      { uid := "u1", action := "skip" } =
      (okResp "⏭️ Skipped to next track",
        [{ method := "POST", endpoint := "/me/player/next" }])
  ∧ tool_control_playback (fun _ => some ()) (fun _ _ => none)
      { uid := "u1", action := "next" } =
      (okResp "⏭️ Skipped to next track",
        [{ method := "POST", endpoint := "/me/player/next" }]) :=
  C7_skip_next_equivalent (fun _ => some ()) (fun _ _ => none) "u1" (by decide) rfl rfl

/-- C8: any request whose action, after lowercasing, lies outside
{play, pause, next, previous, skip} (and whose uid passes the preceding
required-uid check) receives the invalid-action error, and the handler
issues no provider call (the trace is empty; src/main.py lines 670-671). -/
theorem C8_invalid_action_no_call (getTokens : String → Option Unit)
    (playback : String → String → Option String) (uid action : String)
    (h1 : uid ≠ "")
    (h2 : acceptedActions.contains (strLower action) = false) :
    tool_control_playback getTokens playback { uid := uid, action := action } =
      (errResp "Invalid action. Use: play, pause, next, previous", []) := by
  have huid' : (uid == "") = false := by simpa using h1
  have hmem : ¬ strLower action ∈ acceptedActions := by simpa using h2
  simp [tool_control_playback, huid', hmem]

/-- C8 witness: the unsupported action "shuffle" of spec section 8
property 8. -/
theorem C8_witness :
    tool_control_playback (fun _ => some ()) (fun _ _ => none)
      { uid := "u1", action := "shuffle" } =
      (errResp "Invalid action. Use: play, pause, next, previous", []) :=
  C8_invalid_action_no_call (fun _ => some ()) (fun _ _ => none) "u1" "shuffle"
    (by decide) rfl

/-- C10: `control_playback` lowercases the action and validates it before the
credential check: with no stored credentials, an unrecognized action gets the
invalid-action message (which differs from the connect-your-account message),
while a recognized action — even upper-cased, e.g. "NEXT" — falls through to
the credential check and gets the connect message (src/main.py lines
663-675). -/
theorem C10_action_check_before_auth (getTokens : String → Option Unit)
    (playback : String → String → Option String) (uid action : String)
    (h1 : uid ≠ "") (h2 : getTokens uid = none)
    (h3 : acceptedActions.contains (strLower action) = false) :
    tool_control_playback getTokens playback { uid := uid, action := action } =
      (errResp "Invalid action. Use: play, pause, next, previous", [])
  ∧ errResp "Invalid action. Use: play, pause, next, previous" ≠ errResp connectMsg
  ∧ (∀ playback2, tool_control_playback getTokens playback2
      { uid := uid, action := "NEXT" } = (errResp connectMsg, [])) := by
  have huid' : (uid == "") = false := by simpa using h1
  have hmem : ¬ strLower action ∈ acceptedActions := by simpa using h3
  have hnext : strLower "NEXT" = "next" := rfl
  refine ⟨?_, by decide, ?_⟩
  · simp [tool_control_playback, huid', hmem]
  · intro playback2
    simp [tool_control_playback, huid', hnext, h2, acceptedActions]

/-- C10 witness: the theorem applied at a concrete unconnected user and the
mixed-case unrecognized action "Shuffle". -/
theorem C10_witness :
    tool_control_playback (fun _ => none) (fun _ _ => none)
      { uid := "u1", action := "Shuffle" } =
      (errResp "Invalid action. Use: play, pause, next, previous", [])
  ∧ tool_control_playback (fun _ => none) (fun _ _ => none)
      { uid := "u1", action := "NEXT" } = (errResp connectMsg, []) :=
  ⟨(C10_action_check_before_auth (fun _ => none) (fun _ _ => none) "u1" "Shuffle"
      (by decide) rfl rfl).1,
   (C10_action_check_before_auth (fun _ => none) (fun _ _ => none) "u1" "Shuffle"
      (by decide) rfl rfl).2.2 _⟩
